import Mathlib

/-
Shallow embedding of the proxy/relay subsystem of the cflreferral-auto
repository (src/src/proxy/proxy-manager.ts and
src/src/proxy/quantum-proxy-manager.ts), together with theorems settling
the specification claims about it.

Network effects (DNS lookups, TCP connects, HTTP requests) are modelled by
explicit outcome parameters: each theorem quantifies over every possible
outcome the runtime could deliver.  JavaScript numbers are modelled as ℚ/ℤ/ℕ
as appropriate; `Math.round` is modelled as `⌊x + 1/2⌋`, its half-up
behaviour.
-/

namespace CflReferral

/-- Protocol family of a relay (the `protocol` string field in the source). -/
inductive Protocol
  | http
  | https
  | socks4
  | socks5
deriving DecidableEq, Repr

/-- `ProxyInfo` from src/src/types/index.ts as used by proxy-manager.ts:
host, port, protocol family and an optional measured response time. -/
structure ProxyInfo where
  host : String
  port : Nat
  protocol : Protocol
  responseTime : Option Nat := none
deriving DecidableEq, Repr

/-- The `host:port` map key the manager uses for health scores. -/
def proxyKey (p : ProxyInfo) : String :=
  p.host ++ ":" ++ toString p.port

/-! ### JavaScript `Number.parseInt` model (decimal, no explicit radix) -/

/-- Outcome of one network request: response (status, whether the body is
truthy, elapsed ms) or a transport-level failure. -/
inductive NetOutcome
  | ok (status : Nat) (hasData : Bool) (elapsed : Nat)
  | err
deriving DecidableEq, Repr

/-- `pingProxy`: elapsed ms on HTTP 200 with data, otherwise the −1 sentinel. -/
def pingProxy (o : NetOutcome) : Int :=
  match o with
  | .ok status hasData elapsed => if status = 200 ∧ hasData then elapsed else -1
  | .err => -1

/-! ### Pool selector: `findBestProxy` / `getWorkingProxy` (lines 217–272)

The randomized shuffle (`sort(() => 0.5 - Math.random())`) is modelled by
passing the shuffled order as a parameter; `ping` gives the network outcome
of probing each relay. -/

/-- `findBestProxy`: probe the candidates sequentially, keep the successful
ones with their measured time, and pick the fastest (first encountered on a
tie, matching the head of the stable ascending sort in the source).  Returns
`none` when no probe succeeds (the source then leaves `bestProxy` unset). -/
def findBestProxy (testProxies : List ProxyInfo) (ping : ProxyInfo → NetOutcome) :
    Option ProxyInfo :=
  let results := testProxies.filterMap (fun p =>
    let rt := pingProxy (ping p)
    if 0 < rt then some { p with responseTime := some rt.toNat } else none)
  results.foldl (fun best r =>
    match best with
    | none => some r
    | some b =>
      if (r.responseTime.getD 0) < (b.responseTime.getD 0) then some r else some b) none

/-- `getWorkingProxy`, given the pool, the previously selected best proxy (if
any), the shuffled pool order and the probe outcomes.  Returns the proxy
handed to the caller: `null` only on an empty pool, otherwise the best proxy
when one is (or becomes) known, and the relay at pool index 0 as fallback. -/
def getWorkingProxy (proxies : List ProxyInfo) (bestProxy : Option ProxyInfo)
    (shuffled : List ProxyInfo) (testCount : Nat) (ping : ProxyInfo → NetOutcome) :
    Option ProxyInfo :=
  if proxies.isEmpty then none
  else
    let best :=
      match bestProxy with
      | some b => some b
      | none => findBestProxy (shuffled.take (min testCount proxies.length)) ping
    match best with
    | some b => some b
    | none => proxies.head?

/-! ### `getConnectionAdaptiveTimeout` (lines 361–375) and
`getConnectionQuality` (lines 561–573)

Both call `pingProxy` on the current relay.  Since `pingProxy` catches every
error internally and returns −1, their own `catch` branches are unreachable;
the embedding therefore evaluates the `try` body on the sentinel. -/

/-- JavaScript `Math.round`: half-up rounding. -/
def jsRound (x : ℚ) : ℤ := ⌊x + 1 / 2⌋

/-- `getConnectionAdaptiveTimeout`: without a current relay return the base
timeout; with one, probe it, and on a positive measured time return
`round(base · clamp(rt/2000, 1, 3))`; otherwise (the −1 sentinel) fall
through to `return baseTimeout`. -/
def getConnectionAdaptiveTimeout (currentProxy : Option ProxyInfo) (ping : NetOutcome)
    (baseTimeout : ℚ) : ℚ :=
  match currentProxy with
  | none => baseTimeout
  | some _ =>
    let rt := pingProxy ping
    if 0 < rt then (jsRound (baseTimeout * max 1 (min 3 ((rt : ℚ) / 2000))) : ℚ)
    else baseTimeout

/-- Connection quality classification labels. -/
inductive Quality
  | excellent
  | good
  | poor
  | critical
deriving DecidableEq, Repr

/-- `getConnectionQuality`: without a current relay return `excellent`; with
one, probe it and band the returned value by the 2000/5000/10000 thresholds
(the −1 failure sentinel also lands in the first band). -/
def getConnectionQuality (currentProxy : Option ProxyInfo) (ping : NetOutcome) : Quality :=
  match currentProxy with
  | none => .excellent
  | some _ =>
    let rt := pingProxy ping
    if rt < 2000 then .excellent
    else if rt < 5000 then .good
    else if rt < 10000 then .poor
    else .critical

/-! ### Health scores: `switchToNextProxy` (lines 293–342) and
`testHttpConnectivity` (lines 516–559)

The score map `proxyHealthScores : Map<string, number>` is modelled as a
total function `String → ℤ` (the source reads it with `get(key) || 0`, so a
missing key behaves as 0; the initial map is the constant-0 function). -/

/-- Health score map. -/
def HealthScores := String → ℤ

/-- The score map at process start (empty `Map`, every read gives 0). -/
def initialScores : HealthScores := fun _ => 0

/-- The candidate loop of `switchToNextProxy`: probe each candidate in order;
the first one with `0 < rt < 8000` gets +10 and is returned as the new
current relay; every rejected candidate along the way gets −5 floored at 0.
The caller passes the first `min(3, …)` candidates of the sorted order. -/
def switchLoop (scores : HealthScores) (cands : List ProxyInfo)
    (ping : ProxyInfo → NetOutcome) : Option ProxyInfo × HealthScores :=
  match cands with
  | [] => (none, scores)
  | c :: rest =>
    let rt := pingProxy (ping c)
    let key := proxyKey c
    if 0 < rt ∧ rt < 8000 then
      (some c, fun k => if k = key then scores k + 10 else scores k)
    else
      switchLoop (fun k => if k = key then max 0 (scores k - 5) else scores k) rest ping

/-- `switchToNextProxy`: give up on an empty candidate set, otherwise run the
candidate loop on the first `min(3, length)` candidates of the
health-then-latency sorted order (the sorted order is a parameter; its
exact arrangement does not affect the score claims below). -/
def switchToNextProxy (scores : HealthScores) (sortedCands : List ProxyInfo)
    (ping : ProxyInfo → NetOutcome) : Option ProxyInfo × HealthScores :=
  match sortedCands with
  | [] => (none, scores)
  | _ => switchLoop scores (sortedCands.take 3) ping

/-- Outcome of the HTTP connectivity request: axios resolves only for
statuses below 400 (because of `validateStatus`); everything else, including
a ≥400 status, surfaces as a rejection (`err`). -/
inductive HttpOutcome
  | ok (status : Nat)
  | err
deriving DecidableEq, Repr

/-- `testHttpConnectivity` score effect on the current relay's key: +1 when
the response status is below 400, −2 (floored at 0) otherwise, −3 (floored
at 0) when the request threw. -/
def testHttpConnectivity (key : String) (scores : HealthScores) (o : HttpOutcome) :
    Bool × HealthScores :=
  match o with
  | .ok status =>
    if status < 400 then
      (true, fun k => if k = key then scores k + 1 else scores k)
    else
      (false, fun k => if k = key then max 0 (scores k - 2) else scores k)
  | .err => (false, fun k => if k = key then max 0 (scores k - 3) else scores k)

/-- One score-mutating operation of the manager: a switch attempt (with its
sorted candidate list and per-candidate probe outcomes) or one HTTP-level
connectivity check of the current relay. -/
inductive ManagerOp
  | switch (sortedCands : List ProxyInfo) (ping : ProxyInfo → NetOutcome)
  | httpCheck (currentKey : String) (outcome : HttpOutcome)

/-- Score effect of one operation. -/
def applyOp (scores : HealthScores) : ManagerOp → HealthScores
  | .switch sortedCands ping => (switchToNextProxy scores sortedCands ping).2
  | .httpCheck key o => (testHttpConnectivity key scores o).2

/-- Score map after a whole sequence of operations, starting from `scores`. -/
def runOps (scores : HealthScores) (ops : List ManagerOp) : HealthScores :=
  ops.foldl applyOp scores

/-! ### Quantum optimizer: src/src/proxy/quantum-proxy-manager.ts -/

/-- `ConnectionMetrics` (src/src/types/index.ts) as produced by
`measureConnectionQuality`.  JS numbers are modelled as ℚ except for the
timestamp and the rounded stability score. -/
structure ConnectionMetrics where
  latency : ℚ
  jitter : ℚ
  packetLoss : ℚ
  bandwidth : ℚ
  lastTested : ℤ
  stability : ℤ
deriving DecidableEq, Repr

/-- Sum of absolute successive differences of a sample list. -/
def succDiffSum : List ℚ → ℚ
  | [] => 0
  | [_] => 0
  | a :: b :: rest => |b - a| + succDiffSum (b :: rest)

/-- `calculateJitter` (quantum-proxy-manager.ts lines 374–383): mean absolute
successive difference, 0 for fewer than two samples. -/
def calculateJitter (samples : List ℚ) : ℚ :=
  if samples.length < 2 then 0
  else succDiffSum samples / (samples.length - 1 : ℚ)

/-- `measureConnectionQuality` (lines 115–161).  `tcpOk` is the outcome of
the TCP handshake check, `probes i` the outcome of the i-th of the 5
protocol-level samples (`some t` = success after `t` ms, `none` = failure),
`now` the `Date.now()` timestamp.  The TCP-failure branch returns stability
0, the all-samples-failed branch stability 10, and otherwise stability is
the rounded unweighted mean of the latency/jitter/loss sub-scores. -/
def measureConnectionQuality (tcpOk : Bool) (probes : Fin 5 → Option ℕ) (now : ℤ) :
    ConnectionMetrics :=
  let base : ConnectionMetrics :=
    { latency := 0, jitter := 0, packetLoss := 0, bandwidth := 0,
      lastTested := now, stability := 0 }
  if !tcpOk then { base with stability := 0 }
  else
    let httpSamples : List ℚ := (List.ofFn probes).filterMap (fun o => o.map (fun t : ℕ => (t : ℚ)))
    if httpSamples.isEmpty then { base with stability := 10 }
    else
      let latency := httpSamples.sum / (httpSamples.length : ℚ)
      let jitter := calculateJitter httpSamples
      let packetLoss := ((5 - httpSamples.length : ℚ) / 5) * 100
      let latencyScore := max 0 (100 - latency / 10)
      let jitterScore := max 0 (100 - jitter * 10)
      let lossScore := 100 - packetLoss
      { base with
        latency := latency, jitter := jitter, packetLoss := packetLoss,
        stability := jsRound ((latencyScore + jitterScore + lossScore) / 3) }

/-! ### DNS cache: `quantumDNSResolve` (lines 93–113) -/

/-- The DNS cache (`Map<string, {ip, expires}>`), as a total function. -/
def DnsCache := String → Option (String × ℤ)

/-- `quantumDNSResolve`: return the cached IP while its expiry is in the
future; otherwise attempt a fresh lookup (`lookup` is its outcome), caching
a success with `expires = now + ttl`; on a failed lookup fall back to a
(possibly stale) cached entry when one exists, else propagate the error.
Returns the resolved IP together with the cache after the call. -/
def quantumDNSResolve (cache : DnsCache) (domain : String) (now : ℤ) (ttl : ℤ)
    (lookup : Except Unit String) : Except Unit (String × DnsCache) :=
  match cache domain with
  | some entry =>
    if now < entry.2 then .ok (entry.1, cache)
    else
      match lookup with
      | .ok address =>
        .ok (address, fun d => if d = domain then some (address, now + ttl) else cache d)
      | .error _ => .ok (entry.1, cache)
  | none =>
    match lookup with
    | .ok address =>
      .ok (address, fun d => if d = domain then some (address, now + ttl) else cache d)
    | .error e => .error e

/-- Security-metrics snapshot fields consumed by `performSecurityAudit`
(subset of the `SecurityMetrics` produced by the secure-connection
collaborator). -/
structure SecurityMetricsSnap where
  securityScore : ℤ
  vulnerabilities : List String
  recommendations : List String
deriving DecidableEq, Repr

/-- `SmartConnection` state the claims need: the pre-warmed pool (instances
as abstract ids), the metrics snapshot and the optional security snapshot. -/
structure SmartConn where
  pool : List ℕ
  metrics : ConnectionMetrics
  securityMetrics : Option SecurityMetricsSnap
deriving DecidableEq, Repr

/-- `QuantumProxyManager` state the claims need. -/
structure QState where
  dnsCache : DnsCache
  connections : List (String × SmartConn)
  currentConnection : Option SmartConn

/-- `createConnectionPool` (lines 236–251): attempt `poolSize` instance
validations; the pool keeps exactly the instances whose lightweight request
succeeded (failures are skipped silently). -/
def createConnectionPool (poolSize : ℕ) (validated : ℕ → Bool) : List ℕ :=
  (List.range poolSize).filter validated

/-- `performQuantumConnectivityTest` (lines 253–268): handshake timing check,
then chunked-response check, then seeding check; all three must pass. -/
def performQuantumConnectivityTest (handshakeOk chunkedOk seedingOk : Bool) : Bool :=
  handshakeOk && chunkedOk && seedingOk

/-- The hardcoded target domain and pool size of `QuantumProxyManager`. -/
def targetDomain : String := "act.playcfl.com"

/-- `connectionPoolSize` field (3). -/
def connectionPoolSize : ℕ := 3

/-- `dnsCacheTTL` field (300000 ms = 5 min). -/
def dnsCacheTTL : ℤ := 300000

/-- `initializeQuantumConnection` (lines 45–91).  Network outcomes are
parameters: `lookup` for the DNS lookup, `secRes` for
`establishSecureConnection` (which may throw), `metrics` for the measured
connection quality (its measurement never throws), `validated` for the pool
validations, and the three acceptance-test stages.  A thrown step is caught
and turned into `false`; the `securityScore < 60` case only logs a warning.
Returns the boolean result and the manager state after the call. -/
def initializeQuantumConnection (st : QState) (key : String) (now : ℤ)
    (lookup : Except Unit String) (secRes : Except Unit SecurityMetricsSnap)
    (metrics : ConnectionMetrics) (validated : ℕ → Bool)
    (handshakeOk chunkedOk seedingOk : Bool) : Bool × QState :=
  match quantumDNSResolve st.dnsCache targetDomain now dnsCacheTTL lookup with
  | .error _ => (false, st)
  | .ok (_, cache2) =>
    let st2 := { st with dnsCache := cache2 }
    match secRes with
    | .error _ => (false, st2)
    | .ok sec =>
      let conn : SmartConn :=
        { pool := createConnectionPool connectionPoolSize validated,
          metrics := metrics,
          securityMetrics := some sec }
      if !performQuantumConnectivityTest handshakeOk chunkedOk seedingOk then (false, st2)
      else
        (true,
          { st2 with
            connections := (key, conn) :: st2.connections.filter (fun kv => kv.1 ≠ key),
            currentConnection := some conn })

/-- The report returned by `performSecurityAudit`. -/
structure AuditReport where
  score : ℤ
  vulnerabilities : List String
  recommendations : List String
  riskLevel : String
deriving DecidableEq, Repr

/-- `performSecurityAudit` (lines 498–528): throw without a current
connection or without a stored security snapshot; otherwise return the
snapshot's fields with the risk level banded from the stored score. -/
def performSecurityAudit (currentConnection : Option SmartConn) :
    Except String AuditReport :=
  match currentConnection with
  | none => .error "No active connection to audit"
  | some conn =>
    match conn.securityMetrics with
    | none => .error "No security metrics available"
    | some m =>
      .ok
        { score := m.securityScore,
          vulnerabilities := m.vulnerabilities,
          recommendations := m.recommendations,
          riskLevel :=
            if 80 ≤ m.securityScore then "LOW"
            else if 60 ≤ m.securityScore then "MEDIUM"
            else if 40 ≤ m.securityScore then "HIGH"
            else "CRITICAL" }

/-! ### Auxiliary definitions for the theorems -/

/-- The single-step health-score updates the manager performs: +10 on an
accepted switch candidate, −5 floored at 0 on a rejected one, +1 on an
HTTP-check success, −2 and −3 floored at 0 on HTTP-check failures. -/
inductive DefinedDelta : ℤ → ℤ → Prop
  | switchAccept (o : ℤ) : DefinedDelta o (o + 10)
  | switchReject (o : ℤ) : DefinedDelta o (max 0 (o - 5))
  | httpOk (o : ℤ) : DefinedDelta o (o + 1)
  | httpFail (o : ℤ) : DefinedDelta o (max 0 (o - 2))
  | httpErr (o : ℤ) : DefinedDelta o (max 0 (o - 3))

/-- A concrete relay descriptor used by witnesses and counterexamples. -/
def sampleProxy : ProxyInfo :=
  { host := "10.0.0.1", port := 1080, protocol := Protocol.socks5, responseTime := none }

/-- A second concrete relay descriptor. -/
def sampleProxy2 : ProxyInfo :=
  { host := "10.0.0.2", port := 8080, protocol := Protocol.socks5, responseTime := none }

/-- A concrete quantum-manager state with nothing cached or registered. -/
def emptyQState : QState :=
  { dnsCache := fun _ => none, connections := [], currentConnection := none }

/-- A concrete metrics record for witnesses. -/
def zeroMetrics : ConnectionMetrics :=
  { latency := 0, jitter := 0, packetLoss := 0, bandwidth := 0, lastTested := 0, stability := 0 }

/-- A concrete security snapshot for witnesses. -/
def sampleSec : SecurityMetricsSnap :=
  { securityScore := 70, vulnerabilities := [], recommendations := [] }

/-- A concrete DNS cache holding one entry for the target domain. -/
def sampleCache : DnsCache :=
  fun d => if d = targetDomain then some ("5.6.7.8", 100) else none

/-! ## Theorems -/

/-- Claim C2: the code's behaviour at the claim's failing input.  With a
current relay whose probe fails, `pingProxy` returns the −1 sentinel rather
than throwing, so `getConnectionAdaptiveTimeout` falls through to
`return baseTimeout`: for base 1000 it returns 1000, not the 2 × 1000 the
claim (and the function's own unreachable `catch` branch) prescribe. -/
theorem adaptiveTimeout_probe_failure_returns_base :
    getConnectionAdaptiveTimeout (some sampleProxy) NetOutcome.err 1000 = 1000 ∧
    getConnectionAdaptiveTimeout (some sampleProxy) NetOutcome.err 1000 ≠ 2 * 1000 := by
  constructor
  · rfl
  · rw [show getConnectionAdaptiveTimeout (some sampleProxy) NetOutcome.err 1000 =
        1000 from rfl]
    norm_num

/-- Claim C3: the code's behaviour at the claim's failing input.  With a
current relay whose probe fails, `pingProxy` returns −1 rather than
throwing, and −1 < 2000, so `getConnectionQuality` classifies the failure
as `excellent`, not the `critical` the claim (and the function's own
unreachable `catch` branch) prescribe. -/
theorem connectionQuality_probe_failure_is_excellent :
    getConnectionQuality (some sampleProxy) NetOutcome.err = Quality.excellent ∧
    Quality.excellent ≠ Quality.critical := by
  exact ⟨rfl, by decide⟩

/-- Claim C10: `performSecurityAudit` never probes anything fresh — it is a
pure function of the stored snapshot.  It throws exactly when no connection
is current or the current connection has no security snapshot; otherwise it
returns the snapshot's score, vulnerabilities and recommendations verbatim,
with the risk level banded from the stored score alone (≥80 LOW, ≥60
MEDIUM, ≥40 HIGH, else CRITICAL). -/
theorem performSecurityAudit_spec :
    (performSecurityAudit none = Except.error "No active connection to audit")
    ∧ (∀ conn : SmartConn, conn.securityMetrics = none →
        performSecurityAudit (some conn) = Except.error "No security metrics available")
    ∧ (∀ (conn : SmartConn) (m : SecurityMetricsSnap) (r : AuditReport),
        conn.securityMetrics = some m →
        performSecurityAudit (some conn) = Except.ok r →
        r.score = m.securityScore ∧
        r.vulnerabilities = m.vulnerabilities ∧
        r.recommendations = m.recommendations ∧
        (80 ≤ m.securityScore → r.riskLevel = "LOW") ∧
        (60 ≤ m.securityScore ∧ m.securityScore < 80 → r.riskLevel = "MEDIUM") ∧
        (40 ≤ m.securityScore ∧ m.securityScore < 60 → r.riskLevel = "HIGH") ∧
        (m.securityScore < 40 → r.riskLevel = "CRITICAL"))
    ∧ (∀ (conn : SmartConn) (m : SecurityMetricsSnap), conn.securityMetrics = some m →
        (performSecurityAudit (some conn)).isOk = true) := by
  refine ⟨rfl, ?_, ?_, ?_⟩
  · intro conn h
    simp [performSecurityAudit, h]
  · intro conn m r hm hr
    simp only [performSecurityAudit, hm] at hr
    have hrr := (Except.ok.injEq _ _).mp hr.symm
    subst hrr
    refine ⟨rfl, rfl, rfl, ?_, ?_, ?_, ?_⟩
    · intro h80
      simp [if_pos h80]
    · rintro ⟨h60, h80⟩
      rw [if_neg (by omega), if_pos h60]
    · rintro ⟨h40, h60⟩
      rw [if_neg (by omega), if_neg (by omega), if_pos h40]
    · intro h40
      rw [if_neg (by omega), if_neg (by omega), if_neg (by omega)]
  · intro conn m hm
    simp [performSecurityAudit, hm, Except.isOk, Except.toBool]

/-- Claim C10 witness: the characterization applied to a connection holding
the concrete snapshot `sampleSec` (score 70 ⇒ MEDIUM). -/
theorem performSecurityAudit_spec_witness :
    (performSecurityAudit
        (some { pool := [], metrics := zeroMetrics, securityMetrics := some sampleSec })).isOk
      = true :=
  performSecurityAudit_spec.2.2.2
    { pool := [], metrics := zeroMetrics, securityMetrics := some sampleSec } sampleSec rfl

/-- When every probed candidate fails, `findBestProxy` selects nothing (the
source leaves `bestProxy` unset and logs "No working proxies found"). -/
theorem findBestProxy_eq_none_of_all_fail (tests : List ProxyInfo)
    (ping : ProxyInfo → NetOutcome) (h : ∀ q ∈ tests, pingProxy (ping q) ≤ 0) :
    findBestProxy tests ping = none := by
  unfold findBestProxy
  have hnil : (tests.filterMap (fun p =>
      let rt := pingProxy (ping p)
      if 0 < rt then some { p with responseTime := some rt.toNat } else none)) = [] := by
    rw [List.filterMap_eq_nil_iff]
    intro a ha
    dsimp only
    rw [if_neg (not_lt.mpr (h a ha))]
  simp [hnil]

/-- Claim C1: `getWorkingProxy` returns `null` exactly when the pool is
empty (the empty pool is handled with a logged warning, not an exception —
in this embedding every operation is a total function); for every non-empty
pool it returns a relay, and when no best proxy is known yet and every
probed candidate fails it falls back to the relay at pool index 0. -/
theorem getWorkingProxy_none_iff_empty_pool (proxies : List ProxyInfo)
    (bestProxy : Option ProxyInfo) (shuffled : List ProxyInfo) (testCount : Nat)
    (ping : ProxyInfo → NetOutcome) :
    (getWorkingProxy proxies bestProxy shuffled testCount ping = none ↔ proxies = [])
    ∧ (∀ p ps, proxies = p :: ps → bestProxy = none →
        (∀ q ∈ shuffled.take (min testCount proxies.length), pingProxy (ping q) ≤ 0) →
        getWorkingProxy proxies bestProxy shuffled testCount ping = some p) := by
  constructor
  · constructor
    · intro hnone
      cases hpx : proxies with
      | nil => rfl
      | cons a l =>
        exfalso
        rw [hpx] at hnone
        unfold getWorkingProxy at hnone
        simp only [List.isEmpty_cons, Bool.false_eq_true, if_false] at hnone
        cases bestProxy with
        | some b => simp at hnone
        | none =>
          cases hfb : findBestProxy (List.take (testCount ⊓ (l.length + 1)) shuffled) ping with
          | some b => simp [hfb] at hnone
          | none => simp [hfb] at hnone
    · intro he
      subst he
      rfl
  · intro p ps hp hbp hfail
    subst hp
    unfold getWorkingProxy
    rw [hbp, findBestProxy_eq_none_of_all_fail _ _ hfail]
    rfl

/-- Claim C1 witness: a one-relay pool whose only probe fails — the claim's
conclusion instantiated at pool `[sampleProxy]` gives back `sampleProxy`
(pool index 0), and the result is not `null`. -/
theorem getWorkingProxy_none_iff_empty_pool_witness :
    getWorkingProxy [sampleProxy] none [sampleProxy] 5 (fun _ => NetOutcome.err)
      = some sampleProxy :=
  (getWorkingProxy_none_iff_empty_pool [sampleProxy] none [sampleProxy] 5
    (fun _ => NetOutcome.err)).2 sampleProxy [] rfl rfl
    (by intro q _; rw [show pingProxy NetOutcome.err = -1 from rfl]; decide)

/-- The switch-candidate loop keeps every health score non-negative. -/
theorem switchLoop_nonneg (cands : List ProxyInfo) :
    ∀ (scores : HealthScores) (ping : ProxyInfo → NetOutcome),
      (∀ k, 0 ≤ scores k) → ∀ k, 0 ≤ (switchLoop scores cands ping).2 k := by
  induction cands with
  | nil =>
    intro scores ping h k
    simpa [switchLoop] using h k
  | cons c rest ih =>
    intro scores ping h k
    rw [switchLoop]
    split
    · simp only
      split
      · exact add_nonneg (h _) (by norm_num)
      · exact h k
    · refine ih _ ping (fun k2 => ?_) k
      split
      · exact le_max_left 0 _
      · exact h k2

/-- Every single manager operation keeps every health score non-negative. -/
theorem applyOp_nonneg (op : ManagerOp) (scores : HealthScores)
    (h : ∀ k, 0 ≤ scores k) : ∀ k, 0 ≤ applyOp scores op k := by
  intro k
  cases op with
  | switch sortedCands ping =>
    cases sortedCands with
    | nil => exact h k
    | cons a l => exact switchLoop_nonneg ((a :: l).take 3) scores ping h k
  | httpCheck key o =>
    cases o with
    | ok status =>
      simp only [applyOp, testHttpConnectivity]
      split
      · simp only
        split
        · exact add_nonneg (h _) (by norm_num)
        · exact h k
      · simp only
        split
        · exact le_max_left 0 _
        · exact h k
    | err =>
      simp only [applyOp, testHttpConnectivity]
      split
      · exact le_max_left 0 _
      · exact h k

/-- Non-negativity is preserved by whole operation sequences. -/
theorem runOps_nonneg (ops : List ManagerOp) :
    ∀ scores : HealthScores, (∀ k, 0 ≤ scores k) → ∀ k, 0 ≤ runOps scores ops k := by
  induction ops with
  | nil => intro scores h k; exact h k
  | cons op rest ih =>
    intro scores h k
    exact ih (applyOp scores op) (applyOp_nonneg op scores h) k

/-- Claim C4: for every relay key and every sequence of probe outcomes
processed by `switchToNextProxy` and by the HTTP-level connectivity check —
any mix of successes and failures, in any order — the stored health score
never goes below 0 (it starts at 0 and every decrement is floored at 0). -/
theorem healthScore_never_negative (ops : List ManagerOp) (k : String) :
    0 ≤ runOps initialScores ops k :=
  runOps_nonneg ops initialScores (fun _ => le_refl 0) k

/-- Claim C5 counterexample: the claim allows only the deltas
{+10, −5, −2, −3}, but an HTTP-connectivity success mutates the current
relay's score by +1 — here the key "10.0.0.1:1080" moves from 0 to 1 in a
single operation, a delta equal to none of the claimed values. -/
theorem healthScore_http_success_delta_is_one :
    runOps initialScores [ManagerOp.httpCheck "10.0.0.1:1080" (HttpOutcome.ok 200)]
        "10.0.0.1:1080" = 1 ∧
    initialScores "10.0.0.1:1080" = 0 ∧
    ¬ ((1 : ℤ) - 0 = 10 ∨ (1 : ℤ) - 0 = -5 ∨ (1 : ℤ) - 0 = -2 ∨ (1 : ℤ) - 0 = -3) := by
  refine ⟨rfl, rfl, by decide⟩

/-- Claim C5 as amended: across all operations of the manager, a relay key's
stored score evolves only through chains of the five defined updates — +10
on a successful switch-candidate probe, −5 floored at 0 on a rejected switch
candidate, +1 on an HTTP-check success, and −2 / −3 floored at 0 as the
finer-grained HTTP-check penalties — and no operation resets a score. -/
theorem healthScore_changes_only_by_defined_deltas (ops : List ManagerOp)
    (scores : HealthScores) (k : String) :
    Relation.ReflTransGen DefinedDelta (scores k) (runOps scores ops k) := by
  induction ops generalizing scores with
  | nil => exact Relation.ReflTransGen.refl
  | cons op rest ih =>
    have hstep : Relation.ReflTransGen DefinedDelta (scores k) (applyOp scores op k) := by
      cases op with
      | switch sortedCands ping =>
        have hl : ∀ (cands : List ProxyInfo) (s : HealthScores),
            Relation.ReflTransGen DefinedDelta (s k) ((switchLoop s cands ping).2 k) := by
          intro cands
          induction cands with
          | nil => intro s; exact Relation.ReflTransGen.refl
          | cons c cs ihc =>
            intro s
            rw [switchLoop]
            split
            · simp only
              split
              · exact Relation.ReflTransGen.single (DefinedDelta.switchAccept _)
              · exact Relation.ReflTransGen.refl
            · refine Relation.ReflTransGen.trans ?_ (ihc _)
              dsimp only
              split
              · exact Relation.ReflTransGen.single (DefinedDelta.switchReject _)
              · exact Relation.ReflTransGen.refl
        cases sortedCands with
        | nil => exact Relation.ReflTransGen.refl
        | cons a l => exact hl ((a :: l).take 3) scores
      | httpCheck key o =>
        cases o with
        | ok status =>
          simp only [applyOp, testHttpConnectivity]
          split
          · simp only
            split
            · exact Relation.ReflTransGen.single (DefinedDelta.httpOk _)
            · exact Relation.ReflTransGen.refl
          · simp only
            split
            · exact Relation.ReflTransGen.single (DefinedDelta.httpFail _)
            · exact Relation.ReflTransGen.refl
        | err =>
          simp only [applyOp, testHttpConnectivity]
          split
          · exact Relation.ReflTransGen.single (DefinedDelta.httpErr _)
          · exact Relation.ReflTransGen.refl
    exact Relation.ReflTransGen.trans hstep (ih (applyOp scores op))

/-- Claim C7 counterexample: `initializeQuantumConnection` never inspects the
size of the pool it builds.  With every pool validation failing (zero pool
members) but DNS, security assessment and the three-stage test all passing,
it still returns `true` and registers the zero-pool connection as current —
refuting "returns false whenever the pre-warmed connection pool it builds
ends up with zero members". -/
theorem initQuantum_true_despite_empty_pool :
    (initializeQuantumConnection emptyQState "socks5://10.0.0.1:1080" 0
        (Except.ok "1.2.3.4") (Except.ok sampleSec) zeroMetrics
        (fun _ => false) true true true).1 = true ∧
    (initializeQuantumConnection emptyQState "socks5://10.0.0.1:1080" 0
        (Except.ok "1.2.3.4") (Except.ok sampleSec) zeroMetrics
        (fun _ => false) true true true).2.currentConnection =
      some { pool := [], metrics := zeroMetrics, securityMetrics := some sampleSec } := by
  exact ⟨rfl, rfl⟩

/-- Claim C7 as amended: `initializeQuantumConnection` returns `false`
exactly when the destination's name resolution fails with no cached entry,
when the security assessment throws, or when the three-stage connectivity
acceptance test fails — the size of the pre-warmed pool is not checked —
and on every `false`-returning path the connection is not registered as
current. -/
theorem initQuantum_false_characterization (st : QState) (key : String) (now : ℤ)
    (lookup : Except Unit String) (secRes : Except Unit SecurityMetricsSnap)
    (metrics : ConnectionMetrics) (validated : ℕ → Bool)
    (handshakeOk chunkedOk seedingOk : Bool) :
    ((initializeQuantumConnection st key now lookup secRes metrics validated
        handshakeOk chunkedOk seedingOk).1 = false ↔
      ((quantumDNSResolve st.dnsCache targetDomain now dnsCacheTTL lookup).isOk = false
        ∨ secRes.isOk = false
        ∨ performQuantumConnectivityTest handshakeOk chunkedOk seedingOk = false))
    ∧ ((initializeQuantumConnection st key now lookup secRes metrics validated
          handshakeOk chunkedOk seedingOk).1 = false →
        (initializeQuantumConnection st key now lookup secRes metrics validated
          handshakeOk chunkedOk seedingOk).2.currentConnection = st.currentConnection) := by
  rw [initializeQuantumConnection]
  cases hdns : quantumDNSResolve st.dnsCache targetDomain now dnsCacheTTL lookup with
  | error e => simp [Except.isOk, Except.toBool]
  | ok pair =>
    cases secRes with
    | error e => simp [Except.isOk, Except.toBool]
    | ok sec =>
      cases hq : performQuantumConnectivityTest handshakeOk chunkedOk seedingOk with
      | false => simp [Except.isOk, Except.toBool, hq]
      | true => simp [Except.isOk, Except.toBool, hq]

/-- Claim C7 witness: the characterization applied to a concrete failing
run — DNS lookup fails with an empty cache, so the call reports `false` and
leaves no connection registered. -/
theorem initQuantum_false_characterization_witness :
    (initializeQuantumConnection emptyQState "socks5://10.0.0.1:1080" 0
        (Except.error ()) (Except.ok sampleSec) zeroMetrics
        (fun _ => true) true true true).2.currentConnection = none :=
  (initQuantum_false_characterization emptyQState "socks5://10.0.0.1:1080" 0
    (Except.error ()) (Except.ok sampleSec) zeroMetrics (fun _ => true) true true true).2
    rfl

/-- Claim C8: (1) a cached entry is returned verbatim — IP and cache
untouched — while its expiry is in the future, regardless of what a lookup
would return; (2) when no unexpired entry exists a fresh resolution is
attempted, and a successful one is returned and cached with expiry
`now + ttl`; (3) when the fresh resolution fails and a (stale) cached entry
exists, the cached IP is returned; (4) when it fails and no entry exists,
the resolution error propagates to the caller. -/
theorem quantumDNSResolve_spec (cache : DnsCache) (domain : String) (now ttl : ℤ)
    (lookup : Except Unit String) :
    (∀ ip expires, cache domain = some (ip, expires) → now < expires →
        quantumDNSResolve cache domain now ttl lookup = Except.ok (ip, cache))
    ∧ (∀ address, (∀ ip expires, cache domain = some (ip, expires) → expires ≤ now) →
        lookup = Except.ok address →
        quantumDNSResolve cache domain now ttl lookup =
          Except.ok (address, fun d => if d = domain then some (address, now + ttl) else cache d))
    ∧ (∀ ip expires e, cache domain = some (ip, expires) → expires ≤ now →
        lookup = Except.error e →
        quantumDNSResolve cache domain now ttl lookup = Except.ok (ip, cache))
    ∧ (∀ e, cache domain = none → lookup = Except.error e →
        quantumDNSResolve cache domain now ttl lookup = Except.error e) := by
  refine ⟨?_, ?_, ?_, ?_⟩
  · intro ip expires hc hnow
    rw [quantumDNSResolve.eq_def, hc]
    simp only
    rw [if_pos hnow]
  · intro address hstale hl
    rw [quantumDNSResolve.eq_def]
    cases hc : cache domain with
    | none => rw [hl]
    | some entry =>
      simp only
      rw [if_neg (not_lt.mpr (hstale entry.1 entry.2 (by rw [hc]))), hl]
  · intro ip expires e hc hexp hl
    rw [quantumDNSResolve.eq_def, hc]
    simp only
    rw [if_neg (not_lt.mpr hexp), hl]
  · intro e hc hl
    rw [quantumDNSResolve.eq_def, hc, hl]

/-- Claim C8 witness: the concrete cache holding ("5.6.7.8", expiry 100) for
the target domain, queried at time 50 — the entry is still fresh, so even a
failing lookup is not consulted and the cached IP comes back verbatim. -/
theorem quantumDNSResolve_spec_witness :
    quantumDNSResolve sampleCache targetDomain 50 300000 (Except.error ()) =
      Except.ok ("5.6.7.8", sampleCache) :=
  (quantumDNSResolve_spec sampleCache targetDomain 50 300000 (Except.error ())).1
    "5.6.7.8" 100 rfl (by norm_num)

/-- The sum of absolute successive differences is non-negative. -/
theorem succDiffSum_nonneg : ∀ l : List ℚ, 0 ≤ succDiffSum l := by
  intro l
  induction l with
  | nil => simp [succDiffSum]
  | cons a t ih =>
    cases t with
    | nil => simp [succDiffSum]
    | cons b r =>
      rw [succDiffSum]
      exact add_nonneg (abs_nonneg _) ih

/-- `calculateJitter` is non-negative on any sample list. -/
theorem calculateJitter_nonneg (samples : List ℚ) : 0 ≤ calculateJitter samples := by
  rw [calculateJitter]
  split
  · exact le_refl 0
  · rename_i hlen
    have h2 : 2 ≤ samples.length := not_lt.mp hlen
    refine div_nonneg (succDiffSum_nonneg samples) ?_
    have : (2 : ℚ) ≤ (samples.length : ℚ) := by exact_mod_cast h2
    linarith

/-- JavaScript `Math.round` maps [0, 100] into the integers 0 … 100. -/
theorem jsRound_mem_range {x : ℚ} (h0 : 0 ≤ x) (h1 : x ≤ 100) :
    0 ≤ jsRound x ∧ jsRound x ≤ 100 := by
  constructor
  · exact Int.le_floor.mpr (by push_cast; linarith)
  · have hlt : jsRound x < 101 := Int.floor_lt.mpr (by push_cast; linarith)
    omega

/-- The rounded mean of the three sub-scores lies in [0, 100] for any
non-empty sample list of at most 5 non-negative samples. -/
theorem stability_formula_bounds (samples : List ℚ) (hne : samples ≠ [])
    (hlen : samples.length ≤ 5) (hpos : ∀ x ∈ samples, 0 ≤ x) :
    0 ≤ jsRound ((max 0 (100 - samples.sum / (samples.length : ℚ) / 10)
          + max 0 (100 - calculateJitter samples * 10)
          + (100 - (5 - (samples.length : ℚ)) / 5 * 100)) / 3)
    ∧ jsRound ((max 0 (100 - samples.sum / (samples.length : ℚ) / 10)
          + max 0 (100 - calculateJitter samples * 10)
          + (100 - (5 - (samples.length : ℚ)) / 5 * 100)) / 3) ≤ 100 := by
  have hn1 : 1 ≤ samples.length := List.length_pos.mpr hne
  have hn1q : (1 : ℚ) ≤ (samples.length : ℚ) := by exact_mod_cast hn1
  have hn5q : (samples.length : ℚ) ≤ 5 := by exact_mod_cast hlen
  have hsum : 0 ≤ samples.sum := List.sum_nonneg hpos
  have hlat : 0 ≤ samples.sum / (samples.length : ℚ) / 10 :=
    div_nonneg (div_nonneg hsum (by linarith)) (by norm_num)
  have hjit : 0 ≤ calculateJitter samples * 10 :=
    mul_nonneg (calculateJitter_nonneg samples) (by norm_num)
  have hls0 : (0 : ℚ) ≤ max 0 (100 - samples.sum / (samples.length : ℚ) / 10) :=
    le_max_left 0 _
  have hls1 : max (0 : ℚ) (100 - samples.sum / (samples.length : ℚ) / 10) ≤ 100 :=
    max_le (by norm_num) (by linarith)
  have hjs0 : (0 : ℚ) ≤ max 0 (100 - calculateJitter samples * 10) := le_max_left 0 _
  have hjs1 : max (0 : ℚ) (100 - calculateJitter samples * 10) ≤ 100 :=
    max_le (by norm_num) (by linarith)
  have hloss0 : (0 : ℚ) ≤ 100 - (5 - (samples.length : ℚ)) / 5 * 100 := by
    have : (5 - (samples.length : ℚ)) / 5 * 100 ≤ 80 := by linarith
    linarith
  have hloss1 : (100 : ℚ) - (5 - (samples.length : ℚ)) / 5 * 100 ≤ 100 := by
    have : 0 ≤ (5 - (samples.length : ℚ)) / 5 * 100 := by linarith
    linarith
  exact jsRound_mem_range (by linarith) (by linarith)

/-- Claim C9: for every TCP-check outcome and every combination of the five
protocol-level sample outcomes, the stability score computed by
`measureConnectionQuality` is an integer in [0, 100] — including the
TCP-failure branch (score 0) and the all-samples-failed branch (score 10). -/
theorem stability_always_in_range (tcpOk : Bool) (probes : Fin 5 → Option ℕ) (now : ℤ) :
    0 ≤ (measureConnectionQuality tcpOk probes now).stability ∧
    (measureConnectionQuality tcpOk probes now).stability ≤ 100 := by
  rw [measureConnectionQuality]
  cases tcpOk with
  | false => exact ⟨le_refl 0, by norm_num⟩
  | true =>
    simp only [Bool.not_true, Bool.false_eq_true, if_false]
    by_cases hs :
        ((List.ofFn probes).filterMap (fun o => o.map (fun t : ℕ => (t : ℚ)))).isEmpty
    · rw [if_pos hs]
      exact ⟨by norm_num, by norm_num⟩
    · rw [if_neg hs]
      have hne : (List.ofFn probes).filterMap (fun o => o.map (fun t : ℕ => (t : ℚ))) ≠ [] := by
        intro h
        rw [h] at hs
        exact hs rfl
      have hlen :
          ((List.ofFn probes).filterMap (fun o => o.map (fun t : ℕ => (t : ℚ)))).length ≤ 5 := by
        calc ((List.ofFn probes).filterMap (fun o => o.map (fun t : ℕ => (t : ℚ)))).length
            ≤ (List.ofFn probes).length := List.length_filterMap_le _ _
          _ = 5 := List.length_ofFn probes
      have hpos : ∀ x ∈ (List.ofFn probes).filterMap (fun o => o.map (fun t : ℕ => (t : ℚ))),
          0 ≤ x := by
        intro x hx
        rw [List.mem_filterMap] at hx
        obtain ⟨o, -, ho⟩ := hx
        cases o with
        | none => simp at ho
        | some t =>
          rw [Option.map_some', Option.some_inj] at ho
          subst ho
          exact Nat.cast_nonneg t
      exact stability_formula_bounds _ hne hlen hpos

end CflReferral
